import Mathlib

/-!
Shallow embedding of the stdio-to-HTTP bridge in `dev-utils/wrapper.py`.

The bridge reads lines from stdin; for each non-blank line it strips the
surrounding whitespace, logs a trace diagnostic, issues one HTTP POST to a
fixed URL, and handles the outcome: on status 200 it writes the response
body plus a newline to stdout, on any other status it logs a server-error
diagnostic, and on a transport failure it logs a connection-error
diagnostic and continues with the next line.

The embedding is pure: the downstream side is an oracle assigning an
outcome (HTTP status and body, or a transport error) to each issued
request, indexed by the position of the request in the run.  A run result
records the issued requests, the chunks written to stdout, and the chunks
written to stderr, each in order.
-/

/-- Fixed endpoint URL, verbatim the module-level constant of the source. -/
def HTTP_SERVER_URL : String := "http://localhost:9000/mcp/v1/chinook/"

/-- Characters removed by the str.strip method of the source language
(the ASCII whitespace characters). -/
def pyWhitespace (c : Char) : Bool :=
  c = ' ' || c = '\t' || c = '\n' || c = '\r' || c = '\x0b' || c = '\x0c'

/-- Model of str.strip with no argument: drop leading and trailing
whitespace. -/
def pyStrip (s : String) : String :=
  String.mk (((s.data.dropWhile pyWhitespace).reverse.dropWhile pyWhitespace).reverse)

/-- Model of the slice s[:n]: the first n characters of s. -/
def pyTake (s : String) (n : Nat) : String := String.mk (s.data.take n)

/-- One HTTP request as issued by requests.post in the source: method,
target URL, the Content-Type header, the body, and the timeout in
seconds. -/
structure HttpRequest where
  method : String
  url : String
  contentType : String
  body : String
  timeout : Nat
deriving DecidableEq, Repr

/-- Downstream outcome of one issued request: either an HTTP response
with a status code and a body, or a transport-level failure
(requests.exceptions.RequestException) carrying its message. -/
inductive Outcome where
  | response (status : Nat) (body : String)
  | transportError (msg : String)
deriving DecidableEq, Repr

/-- Embedding of the log function: the chunk written to stderr for a
given message, with the fixed tag and the trailing newline. -/
def log (message : String) : String := "BRIDGE-LOG: " ++ message ++ "\n"

/-- The request built for a stripped payload: POST to the fixed URL with
the JSON content type and the 30-second timeout. -/
def mkRequest (payload : String) : HttpRequest :=
  { method := "POST"
    url := HTTP_SERVER_URL
    contentType := "application/json"
    body := payload
    timeout := 30 }

/-- Observable effects of a (partial) run of the loop: issued requests,
chunks written to stdout, chunks written to stderr, each in order. -/
structure StepResult where
  requests : List HttpRequest
  output : List String
  diags : List String
deriving DecidableEq, Repr

/-- The trace diagnostic logged for each non-blank line before the
request is issued: the first 100 characters of the payload, then an
ellipsis. -/
def receivedLog (payload : String) : String :=
  log ("Received Request: " ++ pyTake payload 100 ++ "...")

/-- Effects of one exchange: the body of the loop from the trace log
through the outcome handling, for an already stripped non-blank
payload. -/
def exchange (payload : String) (o : Outcome) : StepResult :=
  match o with
  | .response status body =>
    if status = 200 then
      { requests := [mkRequest payload]
        output := [body ++ "\n"]
        diags := [receivedLog payload] }
    else
      { requests := [mkRequest payload]
        output := []
        diags := [receivedLog payload,
                  log ("Server Error: " ++ toString status ++ " - " ++ body)] }
  | .transportError msg =>
    { requests := [mkRequest payload]
      output := []
      diags := [receivedLog payload,
                log ("HTTP Connection Error: " ++ msg)] }

/-- The for-loop over the input lines: blank lines are skipped, each
non-blank line performs one exchange, consuming the oracle outcome at
index k, and the effects are concatenated in order. -/
def bridgeLoopAux (oracle : Nat → Outcome) : List String → Nat → StepResult
  | [], _ => { requests := [], output := [], diags := [] }
  | line :: rest, k =>
    if pyStrip line = "" then
      bridgeLoopAux oracle rest k
    else
      let s := exchange (pyStrip line) (oracle k)
      let t := bridgeLoopAux oracle rest (k + 1)
      { requests := s.requests ++ t.requests
        output := s.output ++ t.output
        diags := s.diags ++ t.diags }

/-- The loop run from the start of the oracle. -/
def bridgeLoop (oracle : Nat → Outcome) (lines : List String) : StepResult :=
  bridgeLoopAux oracle lines 0

/-- Result of a whole run of main: the issued requests, the stdout and
stderr contents, and the process exit code. -/
structure RunResult where
  requests : List HttpRequest
  output : List String
  diags : List String
  exitCode : Nat
deriving DecidableEq, Repr

/-- The startup diagnostic. -/
def startLog : String := log "Starting MCP Stdio-to-HTTP Bridge..."

/-- The shutdown diagnostic emitted by the KeyboardInterrupt handler. -/
def shutdownLog : String := log "Bridge shutting down."

/-- Embedding of main: the startup log, then the loop over the input
lines.  interrupt = none models a run to end-of-stream; interrupt =
some n models a KeyboardInterrupt arriving after n lines were
processed, caught by the handler, which logs the shutdown diagnostic.
In both cases main returns and the process exits with code 0. -/
def mainRun (oracle : Nat → Outcome) (lines : List String) (interrupt : Option Nat) : RunResult :=
  match interrupt with
  | none =>
    let r := bridgeLoop oracle lines
    { requests := r.requests
      output := r.output
      diags := startLog :: r.diags
      exitCode := 0 }
  | some n =>
    let r := bridgeLoop oracle (lines.take n)
    { requests := r.requests
      output := r.output
      diags := startLog :: (r.diags ++ [shutdownLog])
      exitCode := 0 }

/-- Stripped payloads of the non-blank input lines, in input order.
This is the claim-side description of which lines cause a request. -/
def payloads (lines : List String) : List String :=
  (lines.map pyStrip).filter (fun p => p != "")

/-- Claim-side description of the output stream: for a plan pairing each
issued payload with its outcome in order, the bodies of the
status-200 responses, each with a trailing newline, in order. -/
def successOutputs (plan : List (String × Outcome)) : List String :=
  plan.filterMap (fun x =>
    match x.2 with
    | .response 200 b => some (b ++ "\n")
    | _ => none)

/-- Oracle answering every request with status 200 and body pong. -/
def oracleOk : Nat → Outcome := fun _ => .response 200 "pong"

/-- Oracle answering every request with status 500 and body error. -/
def oracle500 : Nat → Outcome := fun _ => .response 500 "error"

/-- Oracle failing every request at the transport level. -/
def oracleErr : Nat → Outcome := fun _ => .transportError "connection refused"

theorem exchange_requests (payload : String) (o : Outcome) :
    (exchange payload o).requests = [mkRequest payload] := by
  cases o with
  | response status body =>
    simp only [exchange]
    split <;> rfl
  | transportError msg => rfl

theorem bridgeLoopAux_requests (oracle : Nat → Outcome) :
    ∀ (lines : List String) (k : Nat),
      (bridgeLoopAux oracle lines k).requests = (payloads lines).map mkRequest
  | [], _ => rfl
  | line :: rest, k => by
    by_cases h : pyStrip line = ""
    · simp [bridgeLoopAux, payloads, h, bridgeLoopAux_requests oracle rest k,
        List.filter_cons]
    · simp [bridgeLoopAux, payloads, h, bridgeLoopAux_requests oracle rest (k + 1),
        List.filter_cons, exchange_requests]

theorem exchange_output (p : String) (o : Outcome) :
    (exchange p o).output = successOutputs [(p, o)] := by
  cases o with
  | response status body =>
    by_cases h : status = 200 <;> simp [exchange, successOutputs, h]
  | transportError msg => rfl

theorem successOutputs_cons (x : String × Outcome) (t : List (String × Outcome)) :
    successOutputs (x :: t) = successOutputs [x] ++ successOutputs t := by
  obtain ⟨p, o⟩ := x
  cases o with
  | response status body =>
    by_cases h : status = 200 <;> simp [successOutputs, h]
  | transportError msg => simp [successOutputs]

theorem bridgeLoopAux_output (oracle : Nat → Outcome) :
    ∀ (lines : List String) (k : Nat),
      (bridgeLoopAux oracle lines k).output =
        successOutputs ((payloads lines).zip
          ((List.range (payloads lines).length).map (fun i => oracle (k + i))))
  | [], _ => rfl
  | line :: rest, k => by
    by_cases h : pyStrip line = ""
    · have hp : payloads (line :: rest) = payloads rest := by
        simp [payloads, List.filter_cons, h]
      simp [bridgeLoopAux, h, hp, bridgeLoopAux_output oracle rest k]
    · have hp : payloads (line :: rest) = pyStrip line :: payloads rest := by
        simp [payloads, List.filter_cons, h]
      have hshift : ((List.range (payloads rest).length).map Nat.succ).map
            (fun i => oracle (k + i)) =
          (List.range (payloads rest).length).map (fun i => oracle (k + 1 + i)) := by
        rw [List.map_map]
        refine List.map_congr_left fun a _ => ?_
        simp only [Function.comp]
        congr 1
        omega
      rw [hp]
      simp only [List.length_cons, List.range_succ_eq_map, List.map_cons, List.zip_cons_cons,
        hshift, Nat.add_zero]
      rw [successOutputs_cons]
      rw [← bridgeLoopAux_output oracle rest (k + 1)]
      rw [← exchange_output]
      simp [bridgeLoopAux, h]

theorem exchange_diags_shape (p : String) (o : Outcome) (d : String)
    (hd : d ∈ (exchange p o).diags) : ∃ m, d = log m := by
  cases o with
  | response status body =>
    by_cases h : status = 200
    · simp [exchange, h] at hd
      exact ⟨"Received Request: " ++ pyTake p 100 ++ "...", hd⟩
    · simp [exchange, h] at hd
      rcases hd with hd | hd
      · exact ⟨"Received Request: " ++ pyTake p 100 ++ "...", hd⟩
      · exact ⟨"Server Error: " ++ toString status ++ " - " ++ body, hd⟩
  | transportError msg =>
    simp [exchange] at hd
    rcases hd with hd | hd
    · exact ⟨"Received Request: " ++ pyTake p 100 ++ "...", hd⟩
    · exact ⟨"HTTP Connection Error: " ++ msg, hd⟩

theorem bridgeLoopAux_cons_nonblank (oracle : Nat → Outcome) (line : String)
    (rest : List String) (k : Nat) (h : ¬ pyStrip line = "") :
    bridgeLoopAux oracle (line :: rest) k =
      { requests := (exchange (pyStrip line) (oracle k)).requests ++
          (bridgeLoopAux oracle rest (k + 1)).requests
        output := (exchange (pyStrip line) (oracle k)).output ++
          (bridgeLoopAux oracle rest (k + 1)).output
        diags := (exchange (pyStrip line) (oracle k)).diags ++
          (bridgeLoopAux oracle rest (k + 1)).diags } := by
  simp [bridgeLoopAux, h]

theorem bridgeLoopAux_cons_blank (oracle : Nat → Outcome) (line : String)
    (rest : List String) (k : Nat) (h : pyStrip line = "") :
    bridgeLoopAux oracle (line :: rest) k = bridgeLoopAux oracle rest k := by
  simp [bridgeLoopAux, h]

theorem bridgeLoopAux_diags_shape (oracle : Nat → Outcome) :
    ∀ (lines : List String) (k : Nat) (d : String),
      d ∈ (bridgeLoopAux oracle lines k).diags → ∃ m, d = log m
  | [], _, d => by intro hd; simp [bridgeLoopAux] at hd
  | line :: rest, k, d => by
    intro hd
    by_cases h : pyStrip line = ""
    · rw [bridgeLoopAux_cons_blank oracle line rest k h] at hd
      exact bridgeLoopAux_diags_shape oracle rest k d hd
    · rw [bridgeLoopAux_cons_nonblank oracle line rest k h] at hd
      rcases List.mem_append.mp hd with hd | hd
      · exact exchange_diags_shape _ _ d hd
      · exact bridgeLoopAux_diags_shape oracle rest (k + 1) d hd

theorem exchange_output_shape (p : String) (o : Outcome) (x : String)
    (hx : x ∈ (exchange p o).output) : ∃ b, o = .response 200 b ∧ x = b ++ "\n" := by
  cases o with
  | response status body =>
    by_cases h : status = 200
    · subst h
      simp [exchange] at hx
      exact ⟨body, rfl, hx⟩
    · simp [exchange, h] at hx
  | transportError msg => simp [exchange] at hx

theorem bridgeLoopAux_output_shape (oracle : Nat → Outcome) :
    ∀ (lines : List String) (k : Nat) (x : String),
      x ∈ (bridgeLoopAux oracle lines k).output →
      ∃ i b, oracle i = .response 200 b ∧ x = b ++ "\n"
  | [], _, x => by intro hx; simp [bridgeLoopAux] at hx
  | line :: rest, k, x => by
    intro hx
    by_cases h : pyStrip line = ""
    · rw [bridgeLoopAux_cons_blank oracle line rest k h] at hx
      exact bridgeLoopAux_output_shape oracle rest k x hx
    · rw [bridgeLoopAux_cons_nonblank oracle line rest k h] at hx
      rcases List.mem_append.mp hx with hx | hx
      · obtain ⟨b, hb, hxb⟩ := exchange_output_shape _ _ x hx
        exact ⟨k, b, hb, hxb⟩
      · exact bridgeLoopAux_output_shape oracle rest (k + 1) x hx

/-- C1, counterexample: the input line with surrounding whitespace is
non-blank and causes exactly one POST, but the request body is the
stripped line, not the line itself, so the body differs from the line. -/
theorem request_body_differs_from_raw_line :
    pyStrip "  ping \n" ≠ "" ∧
    (bridgeLoop oracleOk ["  ping \n"]).requests.map HttpRequest.body = ["ping"] ∧
    ("ping" : String) ≠ "  ping \n" := by
  refine ⟨by decide, by decide, by decide⟩

/-- C1, amended: in every run the issued requests are exactly one POST
per non-blank input line, in input order, whose body is the line
stripped of surrounding whitespace. -/
theorem request_bodies_are_stripped_lines (oracle : Nat → Outcome) (lines : List String) :
    (bridgeLoop oracle lines).requests = (payloads lines).map mkRequest :=
  bridgeLoopAux_requests oracle lines 0

/-- C2, counterexample: a run with a single exchange answered 200 with
body pong writes exactly the body plus a newline, but its diagnostic
stream is not empty: the exchange logs the received-request trace. -/
theorem success_exchange_still_logs_trace :
    (bridgeLoop oracleOk ["ping"]).output = ["pong\n"] ∧
    (bridgeLoop oracleOk ["ping"]).diags = [receivedLog "ping"] ∧
    receivedLog "ping" = "BRIDGE-LOG: Received Request: ping...\n" := by
  refine ⟨by decide, by decide, by decide⟩

/-- C2, amended: for an exchange whose outcome is status 200 with body
B, exactly one line B plus a newline is written to the output stream,
and the only diagnostic emitted for that exchange is the fixed
received-request trace, with no error diagnostic; the rest of the run
is unaffected. -/
theorem success_exchange_writes_body_once (oracle : Nat → Outcome) (line : String)
    (rest : List String) (k : Nat) (B : String)
    (h : pyStrip line ≠ "") (h2 : oracle k = .response 200 B) :
    bridgeLoopAux oracle (line :: rest) k =
      { requests := mkRequest (pyStrip line) :: (bridgeLoopAux oracle rest (k + 1)).requests
        output := (B ++ "\n") :: (bridgeLoopAux oracle rest (k + 1)).output
        diags := receivedLog (pyStrip line) :: (bridgeLoopAux oracle rest (k + 1)).diags } := by
  rw [bridgeLoopAux_cons_nonblank oracle line rest k h, h2]
  simp [exchange]

/-- C2, witness: the amended success-exchange theorem applied at a
concrete run of one line answered 200 with body pong. -/
theorem success_exchange_writes_body_once_witness :
    bridgeLoopAux oracleOk ["ping"] 0 =
      { requests := mkRequest "ping" :: (bridgeLoopAux oracleOk [] 1).requests
        output := ("pong" ++ "\n") :: (bridgeLoopAux oracleOk [] 1).output
        diags := receivedLog "ping" :: (bridgeLoopAux oracleOk [] 1).diags } :=
  success_exchange_writes_body_once oracleOk "ping" [] 0 "pong" (by decide) rfl

/-- C3, counterexample: a run with a single exchange answered 500 writes
nothing to the output stream, but emits two diagnostic lines, not
exactly one: the received-request trace and the server-error line. -/
theorem non200_exchange_two_diagnostics :
    (bridgeLoop oracle500 ["ping"]).output = [] ∧
    (bridgeLoop oracle500 ["ping"]).diags.length = 2 ∧
    ¬ (bridgeLoop oracle500 ["ping"]).diags.length = 1 := by
  refine ⟨by decide, by decide, by decide⟩

/-- C3, amended: for an exchange whose outcome is a non-200 status,
nothing is written to the output stream, and exactly one error
diagnostic is emitted beyond the fixed received-request trace; that
error diagnostic contains both the status code and the response
body. -/
theorem non200_exchange_logs_status_and_body (payload : String) (status : Nat)
    (body : String) (h : status ≠ 200) :
    exchange payload (.response status body) =
      { requests := [mkRequest payload]
        output := []
        diags := [receivedLog payload,
                  log ("Server Error: " ++ toString status ++ " - " ++ body)] } ∧
    ∃ pre mid post,
      log ("Server Error: " ++ toString status ++ " - " ++ body) =
        pre ++ toString status ++ mid ++ body ++ post := by
  constructor
  · simp [exchange, h]
  · refine ⟨"BRIDGE-LOG: Server Error: ", " - ", "\n", ?_⟩
    simp only [log, String.append_assoc]
    rw [← String.append_assoc]
    congr 1

/-- C3, witness: the amended non-200 theorem applied at a concrete
exchange answered 500 with body error. -/
theorem non200_exchange_logs_status_and_body_witness :
    (exchange "ping" (.response 500 "error") =
      { requests := [mkRequest "ping"]
        output := []
        diags := [receivedLog "ping",
                  log ("Server Error: " ++ toString (500 : Nat) ++ " - " ++ "error")] } ∧
    ∃ pre mid post,
      log ("Server Error: " ++ toString (500 : Nat) ++ " - " ++ "error") =
        pre ++ toString (500 : Nat) ++ mid ++ "error" ++ post) :=
  non200_exchange_logs_status_and_body "ping" 500 "error" (by decide)

/-- C4, counterexample: a run with a single exchange failing at the
transport level writes nothing to the output stream, but emits two
diagnostic lines, not exactly one: the received-request trace and the
connection-error line. -/
theorem transport_failure_two_diagnostics :
    (bridgeLoop oracleErr ["ping"]).output = [] ∧
    (bridgeLoop oracleErr ["ping"]).diags.length = 2 ∧
    ¬ (bridgeLoop oracleErr ["ping"]).diags.length = 1 := by
  refine ⟨by decide, by decide, by decide⟩

/-- C4, amended: for an exchange failing at the transport level, nothing
is written to the output stream, exactly one error diagnostic
containing the error detail is emitted beyond the fixed
received-request trace, and the loop continues with the remaining
lines: the rest of the run is exactly the run of the remaining
lines. -/
theorem transport_failure_logs_and_continues (oracle : Nat → Outcome) (line : String)
    (rest : List String) (k : Nat) (msg : String)
    (h : pyStrip line ≠ "") (h2 : oracle k = .transportError msg) :
    bridgeLoopAux oracle (line :: rest) k =
      { requests := mkRequest (pyStrip line) :: (bridgeLoopAux oracle rest (k + 1)).requests
        output := (bridgeLoopAux oracle rest (k + 1)).output
        diags := receivedLog (pyStrip line) ::
          log ("HTTP Connection Error: " ++ msg) ::
          (bridgeLoopAux oracle rest (k + 1)).diags } := by
  rw [bridgeLoopAux_cons_nonblank oracle line rest k h, h2]
  simp [exchange]

/-- C4, witness: the amended transport-failure theorem applied at a
concrete run where the first of two lines fails with connection
refused; the second line is still processed. -/
theorem transport_failure_logs_and_continues_witness :
    bridgeLoopAux oracleErr ["ping", "pong"] 0 =
      { requests := mkRequest "ping" :: (bridgeLoopAux oracleErr ["pong"] 1).requests
        output := (bridgeLoopAux oracleErr ["pong"] 1).output
        diags := receivedLog "ping" ::
          log ("HTTP Connection Error: " ++ "connection refused") ::
          (bridgeLoopAux oracleErr ["pong"] 1).diags } :=
  transport_failure_logs_and_continues oracleErr "ping" ["pong"] 0 "connection refused"
    (by decide) rfl

/-- C5: a blank or whitespace-only input line is skipped silently: the
run on the remaining lines is unchanged (so the line causes no
request, no output and no diagnostic), and a run consisting of only
that line has no effects at all. -/
theorem blank_lines_skipped_silently (oracle : Nat → Outcome) (line : String)
    (rest : List String) (k : Nat) (h : pyStrip line = "") :
    bridgeLoopAux oracle (line :: rest) k = bridgeLoopAux oracle rest k ∧
    bridgeLoop oracle [line] = { requests := [], output := [], diags := [] } := by
  refine ⟨bridgeLoopAux_cons_blank oracle line rest k h, ?_⟩
  rw [bridgeLoop, bridgeLoopAux_cons_blank oracle line [] 0 h]
  rfl

/-- C5, witness: the blank-line theorem applied at a concrete
whitespace-only line. -/
theorem blank_lines_skipped_silently_witness :
    bridgeLoopAux oracleOk ["  \t "] 0 = bridgeLoopAux oracleOk [] 0 ∧
    bridgeLoop oracleOk ["  \t "] = { requests := [], output := [], diags := [] } :=
  blank_lines_skipped_silently oracleOk "  \t " [] 0 (by decide)

/-- C6: in every run the output stream is exactly the bodies of the
200-status exchanges, each with a trailing newline, paired in order
with the non-blank input lines: at most one output line per input
line, never reordered, one request at a time. -/
theorem outputs_in_order (oracle : Nat → Outcome) (lines : List String) :
    (bridgeLoop oracle lines).output =
      successOutputs ((payloads lines).zip
        ((List.range (payloads lines).length).map oracle)) := by
  rw [bridgeLoop, bridgeLoopAux_output oracle lines 0]
  have hz : (List.range (payloads lines).length).map (fun i => oracle (0 + i)) =
      (List.range (payloads lines).length).map oracle :=
    List.map_congr_left fun a _ => by rw [Nat.zero_add]
  rw [hz]

/-- C7: every line on the diagnostic stream carries the fixed tag, and
the output stream holds nothing but the 200-status response bodies,
each with a trailing newline: no diagnostic text ever reaches the
output stream. -/
theorem diagnostics_tagged_output_clean (oracle : Nat → Outcome) (lines : List String)
    (interrupt : Option Nat) :
    (∀ d ∈ (mainRun oracle lines interrupt).diags,
      ∃ m, d = "BRIDGE-LOG: " ++ m ++ "\n") ∧
    (∀ x ∈ (mainRun oracle lines interrupt).output,
      ∃ i b, oracle i = Outcome.response 200 b ∧ x = b ++ "\n") := by
  constructor
  · intro d hd
    cases interrupt with
    | none =>
      rw [show (mainRun oracle lines none).diags =
        startLog :: (bridgeLoop oracle lines).diags from rfl] at hd
      rcases List.mem_cons.mp hd with hd | hd
      · exact ⟨"Starting MCP Stdio-to-HTTP Bridge...", hd⟩
      · obtain ⟨m, hm⟩ := bridgeLoopAux_diags_shape oracle lines 0 d hd
        exact ⟨m, hm⟩
    | some n =>
      rw [show (mainRun oracle lines (some n)).diags =
        startLog :: ((bridgeLoop oracle (lines.take n)).diags ++ [shutdownLog]) from rfl] at hd
      rcases List.mem_cons.mp hd with hd | hd
      · exact ⟨"Starting MCP Stdio-to-HTTP Bridge...", hd⟩
      · rcases List.mem_append.mp hd with hd | hd
        · obtain ⟨m, hm⟩ := bridgeLoopAux_diags_shape oracle (lines.take n) 0 d hd
          exact ⟨m, hm⟩
        · exact ⟨"Bridge shutting down.", List.mem_singleton.mp hd⟩
  · intro x hx
    cases interrupt with
    | none =>
      rw [show (mainRun oracle lines none).output =
        (bridgeLoop oracle lines).output from rfl] at hx
      exact bridgeLoopAux_output_shape oracle lines 0 x hx
    | some n =>
      rw [show (mainRun oracle lines (some n)).output =
        (bridgeLoop oracle (lines.take n)).output from rfl] at hx
      exact bridgeLoopAux_output_shape oracle (lines.take n) 0 x hx

/-- C7, witness: the tagging theorem applied at a concrete run of one
line answered 200 with body pong, once for the startup diagnostic and
once for the single output line. -/
theorem diagnostics_tagged_output_clean_witness :
    (∃ m, startLog = "BRIDGE-LOG: " ++ m ++ "\n") ∧
    (∃ i b, oracleOk i = Outcome.response 200 b ∧ "pong\n" = b ++ "\n") :=
  ⟨(diagnostics_tagged_output_clean oracleOk ["ping"] none).1 startLog (by decide),
   (diagnostics_tagged_output_clean oracleOk ["ping"] none).2 "pong\n" (by decide)⟩

/-- C8: every request issued in any run is a POST to the fixed endpoint
URL with the JSON content type and the 30-second timeout; the
endpoint is a constant of the embedding, so it never changes during
the run. -/
theorem requests_fixed_endpoint (oracle : Nat → Outcome) (lines : List String)
    (r : HttpRequest) (hr : r ∈ (bridgeLoop oracle lines).requests) :
    r.method = "POST" ∧ r.url = HTTP_SERVER_URL ∧
    r.contentType = "application/json" ∧ r.timeout = 30 := by
  rw [bridgeLoop, bridgeLoopAux_requests oracle lines 0] at hr
  obtain ⟨p, -, rfl⟩ := List.mem_map.mp hr
  exact ⟨rfl, rfl, rfl, rfl⟩

/-- C8, witness: the fixed-endpoint theorem applied to the request
issued by a concrete one-line run. -/
theorem requests_fixed_endpoint_witness :
    (mkRequest "ping").method = "POST" ∧ (mkRequest "ping").url = HTTP_SERVER_URL ∧
    (mkRequest "ping").contentType = "application/json" ∧ (mkRequest "ping").timeout = 30 :=
  requests_fixed_endpoint oracleOk ["ping"] (mkRequest "ping") (by decide)

/-- C9: a run over a finite input stream terminates (mainRun is a total
function), processes every non-blank line, and the process exits with
code 0; an interrupted run also exits with code 0 and its last
diagnostic is the shutdown line. -/
theorem run_exits_zero_processing_all_lines (oracle : Nat → Outcome)
    (lines : List String) (n : Nat) :
    (mainRun oracle lines none).exitCode = 0 ∧
    (mainRun oracle lines (some n)).exitCode = 0 ∧
    (mainRun oracle lines (some n)).diags.getLast? = some shutdownLog ∧
    (mainRun oracle lines none).requests = (payloads lines).map mkRequest := by
  refine ⟨rfl, rfl, ?_, bridgeLoopAux_requests oracle lines 0⟩
  rw [show (mainRun oracle lines (some n)).diags =
    startLog :: ((bridgeLoop oracle (lines.take n)).diags ++ [shutdownLog]) from rfl]
  rw [← List.cons_append]
  exact List.getLast?_concat _

/-- C10: the bridge is deterministic: two runs over the same input lines
and the same downstream outcomes have identical output streams and
identical diagnostic streams. -/
theorem bridge_deterministic (oracle : Nat → Outcome) (lines : List String)
    (interrupt : Option Nat) (r1 r2 : RunResult)
    (h1 : r1 = mainRun oracle lines interrupt)
    (h2 : r2 = mainRun oracle lines interrupt) :
    r1.output = r2.output ∧ r1.diags = r2.diags := by
  subst h1
  subst h2
  exact ⟨rfl, rfl⟩

/-- C10, witness: determinism applied at a concrete one-line run. -/
theorem bridge_deterministic_witness :
    (mainRun oracleOk ["ping"] none).output = (mainRun oracleOk ["ping"] none).output ∧
    (mainRun oracleOk ["ping"] none).diags = (mainRun oracleOk ["ping"] none).diags :=
  bridge_deterministic oracleOk ["ping"] none _ _ rfl rfl
